import Mathlib

/-!
Verification of the scrapetech trade lifecycle engine against its
natural-language specification.

The Python source (scrapetech/db.py, scrapetech/auto_trader.py,
scrapetech/tx_errors.py) is shallowly embedded below.  Monetary amounts
(Python floats) are modelled as exact rationals; SQLite rows touched by the
functions under study are modelled as explicit record states.  All state is
restricted to the single (user, mint) position row, its trade-log rows and
the single pending_trades row keyed by the transaction signature under
consideration: every SQL statement executed by the embedded functions is
keyed by exactly these, so the projection is faithful.
-/

namespace Scrapetech

/-- Trade side, the validated form of the `side` string after
`side.strip().upper()` in the source (db.py apply_trade, confirm_trade). -/
inductive Side where
  | BUY
  | SELL
deriving DecidableEq, Repr

/-- Status column of a pending_trades row (db.py update_pending_trade_status
accepts exactly PENDING, SUCCESS, FAILED). -/
inductive IntentStatus where
  | PENDING
  | SUCCESS
  | FAILED
deriving DecidableEq, Repr

/-- One row of the `positions` table (db.py schema, lines 148-164), restricted
to the columns read and written by apply_trade / reconciliation.  The SQL
column `open` is called `open_flag` here because `open` is a Lean keyword. -/
structure PositionRow where
  token_balance : ℚ
  avg_entry_sol : ℚ
  total_sol_spent : ℚ
  total_sol_received : ℚ
  realized_pnl_sol : ℚ
  open_flag : Bool
deriving DecidableEq, Repr

/-- One row of the append-only `trades` table (db.py schema, lines 166-179). -/
structure TradeRow where
  side : Side
  token_amount : ℚ
  sol_amount : ℚ
  price_sol_per_token : ℚ
  tx_sig : Option String
deriving DecidableEq, Repr

/-- One row of the `pending_trades` table (db.py schema, lines 181-198) for
the signature under consideration. -/
structure IntentRow where
  side : Side
  requested_token_amount : Option ℚ
  requested_sol_amount : Option ℚ
  actual_token_amount : Option ℚ
  actual_sol_amount : Option ℚ
  status : IntentStatus
  error : Option String
deriving DecidableEq, Repr

/-- The database state visible to the embedded functions: the (user, mint)
position row (`none` = no row), the trade log for that pair, and the
pending_trades row for the signature under consideration (`none` = no row). -/
structure LedgerState where
  pos : Option PositionRow
  trades : List TradeRow
  intent : Option IntentRow
deriving DecidableEq, Repr

/-- The epsilon used by apply_trade (db.py line 429: `epsilon = 1e-9`). -/
def epsilon : ℚ := 1 / 1000000000

/-- Errors raised by apply_trade (db.py raises ValueError with distinct
messages; the spec names them InvalidAmount / NoOpenPosition /
InsufficientBalance). -/
inductive TradeError where
  | invalidAmount
  | noOpenPosition
  | insufficientBalance
deriving DecidableEq, Repr

/-- db.py apply_trade (lines 420-521).  The `side` argument is the already
validated enum, so the source check "side must be BUY or SELL" is absorbed
by the type.  Returns the updated database state together with the re-read
position row, or the raised error.  An exception in the source escapes the
`with connect` block before `conn.commit()`, so nothing is written: the
error branches here correspondingly return before any state change. -/
def apply_trade (st : LedgerState) (side : Side) (token_amount sol_amount : ℚ)
    (tx_sig : Option String) : Except TradeError (LedgerState × PositionRow) :=
  if token_amount ≤ 0 ∨ sol_amount ≤ 0 then
    .error .invalidAmount
  else
    -- row defaults when no position row exists yet
    let token_balance := (st.pos.map (·.token_balance)).getD 0
    let avg_entry := (st.pos.map (·.avg_entry_sol)).getD 0
    let total_spent := (st.pos.map (·.total_sol_spent)).getD 0
    let total_received := (st.pos.map (·.total_sol_received)).getD 0
    let realized_pnl := (st.pos.map (·.realized_pnl_sol)).getD 0
    match side with
    | .BUY =>
      let new_balance := token_balance + token_amount
      let new_total_spent := total_spent + sol_amount
      let new_avg_entry := if new_balance > 0 then new_total_spent / new_balance else 0
      let p : PositionRow :=
        { token_balance := new_balance
          avg_entry_sol := new_avg_entry
          total_sol_spent := new_total_spent
          total_sol_received := total_received
          realized_pnl_sol := realized_pnl
          open_flag := true }
      let t : TradeRow :=
        { side := .BUY, token_amount := token_amount, sol_amount := sol_amount
          price_sol_per_token := sol_amount / token_amount, tx_sig := tx_sig }
      .ok ({ st with pos := some p, trades := st.trades ++ [t] }, p)
    | .SELL =>
      if token_balance ≤ 0 then
        .error .noOpenPosition
      else if token_amount > token_balance then
        .error .insufficientBalance
      else
        let pnl := sol_amount - token_amount * avg_entry
        let new_balance := token_balance - token_amount
        let new_realized_pnl := realized_pnl + pnl
        let p : PositionRow :=
          if new_balance ≤ epsilon then
            { token_balance := 0
              avg_entry_sol := 0
              total_sol_spent := total_spent
              total_sol_received := total_received + sol_amount
              realized_pnl_sol := new_realized_pnl
              open_flag := false }
          else
            { token_balance := new_balance
              avg_entry_sol := avg_entry
              total_sol_spent := total_spent
              total_sol_received := total_received + sol_amount
              realized_pnl_sol := new_realized_pnl
              open_flag := true }
        let t : TradeRow :=
          { side := .SELL, token_amount := token_amount, sol_amount := sol_amount
            price_sol_per_token := sol_amount / token_amount, tx_sig := tx_sig }
        .ok ({ st with pos := some p, trades := st.trades ++ [t] }, p)

/-- The database content after an apply_trade call: on an exception the
`with connect` context manager in db.py never reaches `conn.commit()`, so
the database keeps its previous content. -/
def applyTradeState (st : LedgerState) (side : Side) (token_amount sol_amount : ℚ)
    (tx_sig : Option String) : LedgerState :=
  match apply_trade st side token_amount sol_amount tx_sig with
  | .ok (st', _) => st'
  | .error _ => st

/-- db.py update_pending_trade_status (lines 553-574): the single UPDATE
overwrites status, error and both actual amounts of the row keyed by the
signature (a missing row means the UPDATE matches nothing). -/
def update_pending_trade_status (st : LedgerState) (status : IntentStatus)
    (error : Option String) (actual_token_amount actual_sol_amount : Option ℚ) :
    LedgerState :=
  match st.intent with
  | none => st
  | some i =>
    { st with
      intent := some { i with
        status := status, error := error
        actual_token_amount := actual_token_amount
        actual_sol_amount := actual_sol_amount } }

/-- db.py get_pending_trade: imported by auto_trader.py and
telethon_listener.py but not defined anywhere under the repository sources.
Modelled from the spec: a read of the pending-intent row keyed by the
transaction signature (spec §4.2, Pending-Intent Tracker). -/
def get_pending_trade (st : LedgerState) : Option IntentRow :=
  st.intent

/-- Modelled from the spec: db.py reconcile_position_balance is imported by
auto_trader.py, bot.py and telethon_listener.py but not defined anywhere
under the repository sources.  Spec §4.1: "`reconcile_balance(user, asset,
onchain_balance)` ... directly sets token_balance to a known-good on-chain
value without going through the cost-basis math of apply_trade ...; it must never
fabricate Trade rows or alter avg_entry_cost/realized_pnl". -/
def reconcile_position_balance (st : LedgerState) (onchain_balance : ℚ) :
    LedgerState :=
  match st.pos with
  | none => st
  | some p => { st with pos := some { p with token_balance := onchain_balance } }

/-- View of a getSignatureStatuses entry (solana_rpc.rpc_get_signature_status).
`none` in a field models a missing or Python-falsy entry; error values are
assumed to be non-empty strings (Python truthiness). -/
structure SigStatusView where
  err : Option String
  confirmationStatus : Option String
deriving DecidableEq, Repr

/-- The `meta` object of a transaction receipt.  `err : none` models a
missing or falsy `err` entry. -/
structure ReceiptMeta where
  err : Option String
deriving DecidableEq, Repr

/-- A transaction receipt as consumed by auto_trader._wait_for_receipt.
`meta = none` models a missing or falsy `meta` entry.  The two delta fields
carry the output of solana_rpc.extract_tx_deltas on this receipt
(`sol_delta_lamports` / `token_delta_ui`); that parser is pure and is
treated as an oracle whose value at the receipt is recorded here.  When
`meta` is falsy, extract_tx_deltas finds no balance snapshots and both
deltas are `None`; `waitForReceipt` enforces this below. -/
structure Receipt where
  meta : Option ReceiptMeta
  sol_delta_lamports : Option ℤ
  token_delta_ui : Option ℚ
deriving DecidableEq, Repr

/-- What one iteration of the retry loop in _wait_for_receipt observes.
`raises = true` models any RPC call in the loop body raising: the
`except Exception: pass` swallows it, the attempt observes nothing and
`confirmed_seen` is unchanged. -/
structure Attempt where
  raises : Bool
  tx : Option Receipt
  status : Option SigStatusView
deriving DecidableEq, Repr

/-- The `(sol_delta, token_delta_ui, err)` triple returned by
_wait_for_receipt. -/
structure WaitResult where
  sol_delta : Option ℤ
  token_delta_ui : Option ℚ
  err : Option String
deriving DecidableEq, Repr

/-- auto_trader._wait_for_receipt (lines 45-73), with the bounded retry loop
driven by the list of per-attempt RPC observations (one entry per loop
iteration; the list length plays the role of `retries`) and the
`confirmed_seen` flag made an explicit accumulator (initially `false`). -/
def waitForReceipt (attempts : List Attempt) (confirmed_seen : Bool) : WaitResult :=
  match attempts with
  | [] =>
    -- retries exhausted (lines 71-73)
    if confirmed_seen then ⟨none, none, some "RECEIPT_PENDING"⟩
    else ⟨none, none, some "Transaction not found on-chain"⟩
  | a :: rest =>
    if a.raises then waitForReceipt rest confirmed_seen
    else
      match a.tx with
      | some rc =>
        match rc.meta with
        | some m =>
          match m.err with
          | some e => ⟨none, none, some e⟩          -- lines 53-54
          | none =>
            match rc.sol_delta_lamports, rc.token_delta_ui with
            | some sd, some td => ⟨some sd, some td, none⟩  -- lines 64-65
            | sd?, _ => ⟨sd?, none, some "MISSING_DELTAS"⟩  -- lines 66-67
        | none =>
          -- meta falsy: lines 53, 66 fail and extract_tx_deltas yields no deltas
          waitForReceipt rest confirmed_seen
      | none =>
        -- receipt absent: consult the signature status (lines 55-60)
        match a.status with
        | some s =>
          match s.err with
          | some e => ⟨none, none, some e⟩          -- lines 57-58
          | none =>
            let isConf :=
              match s.confirmationStatus with
              | some c => c == "processed" || c == "confirmed" || c == "finalized"
              | none => false
            waitForReceipt rest (confirmed_seen || isConf)
        | none => waitForReceipt rest confirmed_seen

/-- Outcome of the on-chain balance fetch on the success path of confirm_trade
(auto_trader lines 183-186): the call may raise (swallowed by the
surrounding `except`), return `None`, or return a balance. -/
inductive RpcFetch where
  | raised
  | value (b : Option ℚ)
deriving DecidableEq, Repr

/-- The result dictionary returned by confirm_trade. -/
structure ConfirmResult where
  status : IntentStatus
  error : Option String
  token_amount : Option ℚ
  sol_amount : Option ℚ
deriving DecidableEq, Repr

/-- auto_trader.confirm_trade (lines 111-196).  The `side` argument is the
validated enum.  RPC observations are passed in: `attempts` drives
_wait_for_receipt; `onchain_missing` is the balance fetched in the
MISSING_DELTAS branch (lines 132-136, where a raise is converted to `None`
by the local `except`); `onchain_success` is the balance fetch on the
success path.  Returns the new database state and the result dictionary. -/
def confirm_trade (st : LedgerState) (side : Side) (attempts : List Attempt)
    (onchain_missing : Option ℚ) (onchain_success : RpcFetch) (sig : String) :
    LedgerState × ConfirmResult :=
  let wr := waitForReceipt attempts false
  match wr.err with
  | some e =>
    if e = "MISSING_DELTAS" then
      -- lines 126-166
      let pending := get_pending_trade st
      let sol_amount0 : ℚ :=
        match wr.sol_delta with
        | some d => |(d : ℚ)| / 1000000000
        | none => 0
      -- lines 129-131; requested_sol_amount is truthy iff present and nonzero
      let sol_amount : ℚ :=
        if side = .BUY then
          match pending with
          | some pd =>
            match pd.requested_sol_amount with
            | some r => if r ≠ 0 then r else sol_amount0
            | none => sol_amount0
          | none => sol_amount0
        else sol_amount0
      -- lines 138-144: same-amount fallback from the live on-chain balance
      let token_amount1 : Option ℚ :=
        match onchain_missing with
        | some b =>
          let prev_bal := (st.pos.map (·.token_balance)).getD 0
          let delta := if side = .BUY then b - prev_bal else prev_bal - b
          if delta > 0 then some delta else none
        | none => none
      -- lines 146-147; requested_token_amount is truthy iff present and nonzero
      let token_amount : Option ℚ :=
        match token_amount1 with
        | some t => some t
        | none =>
          match pending with
          | some pd =>
            match pd.requested_token_amount with
            | some r => if r ≠ 0 then some r else none
            | none => none
          | none => none
      match token_amount with
      | some t =>
        if sol_amount > 0 ∧ t ≠ 0 ∧ t > 0 then
          -- lines 150-163; an apply_trade exception is swallowed (line 164-165)
          match apply_trade st side t sol_amount (some sig) with
          | .ok (st', _) =>
            let st'' := update_pending_trade_status st' .SUCCESS none (some t) (some sol_amount)
            (st'', ⟨.SUCCESS, none, some t, some sol_amount⟩)
          | .error _ => (st, ⟨.PENDING, some "Missing token deltas", none, none⟩)
        else (st, ⟨.PENDING, some "Missing token deltas", none, none⟩)
      | none => (st, ⟨.PENDING, some "Missing token deltas", none, none⟩)
    else if e = "RECEIPT_PENDING" then
      -- lines 167-168
      (st, ⟨.PENDING, none, none, none⟩)
    else
      -- lines 169-170: any other error string resolves the intent FAILED
      (update_pending_trade_status st .FAILED (some e) none none,
       ⟨.FAILED, some e, none, none⟩)
  | none =>
    match wr.sol_delta, wr.token_delta_ui with
    | some sd, some td =>
      -- lines 172-194
      let sol_amount : ℚ := |(sd : ℚ)| / 1000000000
      let token_amount : ℚ := |td|
      let stFinal :=
        match apply_trade st side token_amount sol_amount (some sig) with
        | .ok (st', _) =>
          let st'' := update_pending_trade_status st' .SUCCESS none
            (some token_amount) (some sol_amount)
          match onchain_success with
          | .raised => st''         -- exception inside the try: pass
          | .value none => st''     -- line 185 guard fails
          | .value (some b) => reconcile_position_balance st'' b
        | .error _ => st            -- apply_trade raised; except: pass
      (stFinal, ⟨.SUCCESS, none, some token_amount, some sol_amount⟩)
    | _, _ => (st, ⟨.PENDING, none, none, none⟩)

/-! ### tx_errors.py -/

/-- The ASCII single-quote character, written via its code point. -/
def sq : Char := Char.ofNat 39

/-- Substring containment, the Python test `needle in hay`. -/
def containsSub (needle hay : List Char) : Bool :=
  hay.tails.any (fun t => needle.isPrefixOf t)

/-- Model of `re.search(r"{q}message{q}: {q}([^{q}]+){q}", msg)` in
tx_errors.format_tx_error (with `{q}` the single quote): the leftmost
occurrence of the literal `{q}message{q}: {q}` followed by at least one
non-quote character and a closing quote; returns the captured run. -/
def innerMessage : List Char → Option (List Char)
  | [] => none
  | c :: rest =>
    let here :=
      let pat := [sq] ++ "message".toList ++ [sq, ':', ' ', sq]
      let s := c :: rest
      if pat.isPrefixOf s then
        let tail1 := s.drop pat.length
        let run := tail1.takeWhile (fun ch => ch ≠ sq)
        if run ≠ [] ∧ tail1.drop run.length ≠ [] then some run else none
      else none
    match here with
    | some cap => some cap
    | none => innerMessage rest

/-- Digit run to a number, for the lamports regex groups. -/
def natOfDigits (ds : List Char) : Nat :=
  ds.foldl (fun n c => 10 * n + (c.toNat - 48)) 0

/-- Model of `re.search(r"insufficient lamports (\d+), need (\d+)", msg)`:
leftmost occurrence of the literal followed by a maximal nonempty digit run,
the literal ", need " and a second maximal nonempty digit run.  (Greedy
`\d+` followed by a non-digit literal admits no other match shape.) -/
def lamportsMatch : List Char → Option (Nat × Nat)
  | [] => none
  | c :: rest =>
    let here :=
      let lit1 := "insufficient lamports ".toList
      let s := c :: rest
      if lit1.isPrefixOf s then
        let t1 := s.drop lit1.length
        let d1 := t1.takeWhile Char.isDigit
        let t2 := t1.drop d1.length
        let lit2 := ", need ".toList
        if d1 ≠ [] ∧ lit2.isPrefixOf t2 then
          let t3 := t2.drop lit2.length
          let d2 := t3.takeWhile Char.isDigit
          if d2 ≠ [] then some (natOfDigits d1, natOfDigits d2) else none
        else none
      else none
    match here with
    | some m => some m
    | none => lamportsMatch rest

/-- Rounding of `n / 1000` to the nearest integer, ties to even: models the
CPython rendering `f"{n / 1e9:.6f}"` of a lamport count as micro-SOL (up to
the binary double rounding of `n / 1e9`, which the claims never exercise). -/
def microRound (n : Nat) : Nat :=
  let q := n / 1000
  let r := n % 1000
  if r > 500 then q + 1
  else if r < 500 then q
  else if q % 2 = 1 then q + 1 else q

/-- Fixed-point rendering with six decimal places of `n / 1e9` SOL. -/
def fmt6 (n : Nat) : List Char :=
  let m := microRound n
  let ip := m / 1000000
  let fp := m % 1000000
  let ds := Nat.toDigits 10 fp
  Nat.toDigits 10 ip ++ ['.'] ++ List.replicate (6 - ds.length) '0' ++ ds

/-- tx_errors.format_tx_error.  `err = none` models the Python argument
`None`; otherwise the string form of the argument is passed.  Lowercasing is
`Char.toLower` per character, which agrees with `str.lower` on the ASCII
error texts in scope. -/
def format_tx_error (err : Option String) : String :=
  let msg0 := (err.getD "").toList
  if msg0 = [] then "Transaction failed."
  else
    let msg := (innerMessage msg0).getD msg0
    let lower := msg.map Char.toLower
    if containsSub "bondingcurvecomplete".toList msg
        || containsSub "custom program error: 0x1775".toList msg then
      "Bonding curve complete (migrated to Raydium)."
    else if containsSub "accountnotfound".toList lower then
      "Wallet has no SOL (account not funded)."
    else if containsSub "insufficient lamports".toList lower then
      match lamportsMatch msg with
      | some hn =>
        String.mk ("Insufficient SOL for fees (need ".toList ++ fmt6 hn.2
          ++ ", have ".toList ++ fmt6 hn.1 ++ ").".toList)
      | none => "Insufficient SOL for fees."
    else if containsSub "transaction processed but receipt not available".toList lower then
      "Transaction submitted; awaiting confirmation."
    else if containsSub "transaction simulation failed".toList lower then
      "Transaction simulation failed."
    else if containsSub "custom program error: 0x1".toList lower
        || containsSub ("custom".toList ++ [sq] ++ ": 1".toList) lower then
      "Transaction failed (program error)."
    else String.mk msg

/-! ### Position monitor (auto_trader.py lines 274-327) -/

/-- The user-settings fields read by _evaluate_position.  `tp_sl_enabled`
is the truthiness of `int(settings.get("tp_sl_enabled", 1))`. -/
structure MonitorSettings where
  tp_sl_enabled : Bool
  take_profit_pct : ℚ
  stop_loss_pct : ℚ
deriving DecidableEq, Repr

/-- The position-row fields read by _evaluate_position.  `avg_entry_sol`
models `float(pos.get("avg_entry_sol") or 0)` (the `or 0` is the identity
on the rational model). -/
structure PosView where
  open_flag : Bool
  avg_entry_sol : ℚ
  token_balance : ℚ
deriving DecidableEq, Repr

/-- What one _evaluate_position tick decides: skip, or a full-position
auto-sell from the take-profit branch (line 321) or the stop-loss branch
(line 325). -/
inductive MonitorAction where
  | skip
  | sellTP (tokens : ℚ)
  | sellSL (tokens : ℚ)
deriving DecidableEq, Repr

/-- The decision logic of auto_trader._evaluate_position (lines 298-327):
the guards, then `price >= entry * (1 + tp/100)` checked before
`price <= entry * (1 - sl/100)`, each behind a positivity guard on the
percentage.  `telegramId` is the result of the `get_telegram_user_id`
lookup; `price` the result of `_current_price_sol_per_token`. -/
def evaluatePosition (pos : PosView) (telegramId : Option String)
    (settings : MonitorSettings) (price : Option ℚ) : MonitorAction :=
  if !pos.open_flag then .skip
  else if telegramId.isNone then .skip
  else if !settings.tp_sl_enabled then .skip
  else if pos.avg_entry_sol ≤ 0 then .skip
  else
    match price with
    | none => .skip
    | some pr =>
      let entry := pos.avg_entry_sol
      let tp := settings.take_profit_pct
      let sl := settings.stop_loss_pct
      if tp > 0 ∧ pr ≥ entry * (1 + tp / 100) then .sellTP pos.token_balance
      else if sl > 0 ∧ pr ≤ entry * (1 - sl / 100) then .sellSL pos.token_balance
      else .skip

/-- Outcome of the auto_sell_for_position call triggered by a monitor tick
(auto_trader lines 262-271): it returns normally on SUCCESS, raises
TxPending on a PENDING confirmation and TxFailed on FAILED. -/
inductive SellOutcome where
  | success
  | pendingTx
  | failedTx
deriving DecidableEq, Repr

/-- Exceptions that can escape _evaluate_position: the TxPending / TxFailed
raised by the triggered auto-sell, or an RPC failure inside
_current_price_sol_per_token (which has no local handler). -/
inductive MonitorExn where
  | txPending
  | txFailed
  | priceFetchError
deriving DecidableEq, Repr

/-- One row of the monitor sweep together with the outcomes of the external
calls its evaluation performs. -/
structure MonitorInput where
  pos : PosView
  telegramId : Option String
  settings : MonitorSettings
  priceFetch : RpcFetch
  sellOutcome : SellOutcome
deriving DecidableEq, Repr

/-- auto_trader._evaluate_position including its effects: no statement in
it catches exceptions, so a raising price fetch or a raising auto-sell
escapes the function. -/
def evaluatePositionE (inp : MonitorInput) : Except MonitorExn Unit :=
  if !inp.pos.open_flag then .ok ()
  else if inp.telegramId.isNone then .ok ()
  else if !inp.settings.tp_sl_enabled then .ok ()
  else if inp.pos.avg_entry_sol ≤ 0 then .ok ()
  else
    match inp.priceFetch with
    | .raised => .error .priceFetchError
    | .value none => .ok ()
    | .value (some pr) =>
      match evaluatePosition inp.pos inp.telegramId inp.settings (some pr) with
      | .skip => .ok ()
      | _ =>
        match inp.sellOutcome with
        | .success => .ok ()
        | .pendingTx => .error .txPending
        | .failedTx => .error .txFailed

/-- The inner sweep of auto_trader.monitor_positions_loop (lines 274-279):
`for row in rows: _evaluate_position(row)` with no exception handler.
Returns how many rows were entered and the exception that aborted the sweep,
if any; rows after a raising one are never evaluated. -/
def monitorOnce : List MonitorInput → Nat × Option MonitorExn
  | [] => (0, none)
  | inp :: rest =>
    match evaluatePositionE inp with
    | .ok _ =>
      let r := monitorOnce rest
      (r.1 + 1, r.2)
    | .error ex => (1, some ex)

/-! ### Analysis harnesses and predicates (not source translations) -/

/-- Iteration harness: a sequence of BUY trades applied through apply_trade
(`ts.1` = token amount, `ts.2` = settlement amount), stopping at the first
error.  Used to state the spec property "for all sequences of BUY trades". -/
def applyBuys (st : LedgerState) : List (ℚ × ℚ) → Except TradeError LedgerState
  | [] => .ok st
  | ts :: rest =>
    match apply_trade st .BUY ts.1 ts.2 none with
    | .ok (st', _) => applyBuys st' rest
    | .error e => .error e

/-- A retry-loop iteration that yields no receipt and no signature-status
error: either an RPC call raised, or the receipt was absent and the status
endpoint reported no error.  These are exactly the iterations after which
_wait_for_receipt keeps polling without having seen a receipt. -/
def noReceiptAttempt (a : Attempt) : Bool :=
  a.raises ||
    (a.tx.isNone &&
      (match a.status with
       | none => true
       | some s => s.err.isNone))

/-- A retry-loop iteration in which the receipt was absent but the
signature-status endpoint reported a processed/confirmed/finalized status
without an error — the iterations that set `confirmed_seen`. -/
def confirmingAttempt (a : Attempt) : Bool :=
  !a.raises && a.tx.isNone &&
    (match a.status with
     | none => false
     | some s =>
       s.err.isNone &&
         (match s.confirmationStatus with
          | some c => c == "processed" || c == "confirmed" || c == "finalized"
          | none => false))

/-! ### Characterization lemmas for apply_trade -/

lemma apply_trade_sell_snap (st : LedgerState) (p : PositionRow) (tok sol : ℚ)
    (sig : Option String) (hp : st.pos = some p) (ht : 0 < tok) (hs : 0 < sol)
    (hb : 0 < p.token_balance) (hle : tok ≤ p.token_balance)
    (hsnap : p.token_balance - tok ≤ epsilon) :
    apply_trade st .SELL tok sol sig =
      .ok ({ st with
             pos := some { token_balance := 0,
                           avg_entry_sol := 0,
                           total_sol_spent := p.total_sol_spent,
                           total_sol_received := p.total_sol_received + sol,
                           realized_pnl_sol := p.realized_pnl_sol + (sol - tok * p.avg_entry_sol),
                           open_flag := false },
             trades := st.trades ++ [⟨.SELL, tok, sol, sol / tok, sig⟩] },
           { token_balance := 0,
             avg_entry_sol := 0,
             total_sol_spent := p.total_sol_spent,
             total_sol_received := p.total_sol_received + sol,
             realized_pnl_sol := p.realized_pnl_sol + (sol - tok * p.avg_entry_sol),
             open_flag := false }) := by
  have hcond : ¬(tok ≤ 0 ∨ sol ≤ 0) := by
    push_neg
    exact ⟨ht, hs⟩
  simp only [apply_trade, hp, Option.map_some', Option.getD_some, if_neg hcond,
    if_neg (not_le.mpr hb), if_neg (not_lt.mpr hle), if_pos hsnap]

lemma apply_trade_sell_nosnap (st : LedgerState) (p : PositionRow) (tok sol : ℚ)
    (sig : Option String) (hp : st.pos = some p) (ht : 0 < tok) (hs : 0 < sol)
    (hb : 0 < p.token_balance) (hle : tok ≤ p.token_balance)
    (hsnap : ¬(p.token_balance - tok ≤ epsilon)) :
    apply_trade st .SELL tok sol sig =
      .ok ({ st with
             pos := some { token_balance := p.token_balance - tok,
                           avg_entry_sol := p.avg_entry_sol,
                           total_sol_spent := p.total_sol_spent,
                           total_sol_received := p.total_sol_received + sol,
                           realized_pnl_sol := p.realized_pnl_sol + (sol - tok * p.avg_entry_sol),
                           open_flag := true },
             trades := st.trades ++ [⟨.SELL, tok, sol, sol / tok, sig⟩] },
           { token_balance := p.token_balance - tok,
             avg_entry_sol := p.avg_entry_sol,
             total_sol_spent := p.total_sol_spent,
             total_sol_received := p.total_sol_received + sol,
             realized_pnl_sol := p.realized_pnl_sol + (sol - tok * p.avg_entry_sol),
             open_flag := true }) := by
  have hcond : ¬(tok ≤ 0 ∨ sol ≤ 0) := by
    push_neg
    exact ⟨ht, hs⟩
  simp only [apply_trade, hp, Option.map_some', Option.getD_some, if_neg hcond,
    if_neg (not_le.mpr hb), if_neg (not_lt.mpr hle), if_neg hsnap]

lemma apply_trade_buy_some (st : LedgerState) (p : PositionRow) (tok sol : ℚ)
    (sig : Option String) (hp : st.pos = some p) (ht : 0 < tok) (hs : 0 < sol)
    (hb : 0 < p.token_balance + tok) :
    apply_trade st .BUY tok sol sig =
      .ok ({ st with
             pos := some { token_balance := p.token_balance + tok,
                           avg_entry_sol := (p.total_sol_spent + sol) / (p.token_balance + tok),
                           total_sol_spent := p.total_sol_spent + sol,
                           total_sol_received := p.total_sol_received,
                           realized_pnl_sol := p.realized_pnl_sol,
                           open_flag := true },
             trades := st.trades ++ [⟨.BUY, tok, sol, sol / tok, sig⟩] },
           { token_balance := p.token_balance + tok,
             avg_entry_sol := (p.total_sol_spent + sol) / (p.token_balance + tok),
             total_sol_spent := p.total_sol_spent + sol,
             total_sol_received := p.total_sol_received,
             realized_pnl_sol := p.realized_pnl_sol,
             open_flag := true }) := by
  have hcond : ¬(tok ≤ 0 ∨ sol ≤ 0) := by
    push_neg
    exact ⟨ht, hs⟩
  simp only [apply_trade, hp, Option.map_some', Option.getD_some, if_neg hcond, if_pos hb]

lemma apply_trade_buy_none (st : LedgerState) (tok sol : ℚ)
    (sig : Option String) (hp : st.pos = none) (ht : 0 < tok) (hs : 0 < sol) :
    apply_trade st .BUY tok sol sig =
      .ok ({ st with
             pos := some { token_balance := tok,
                           avg_entry_sol := sol / tok,
                           total_sol_spent := sol,
                           total_sol_received := 0,
                           realized_pnl_sol := 0,
                           open_flag := true },
             trades := st.trades ++ [⟨.BUY, tok, sol, sol / tok, sig⟩] },
           { token_balance := tok,
             avg_entry_sol := sol / tok,
             total_sol_spent := sol,
             total_sol_received := 0,
             realized_pnl_sol := 0,
             open_flag := true }) := by
  have hcond : ¬(tok ≤ 0 ∨ sol ≤ 0) := by
    push_neg
    exact ⟨ht, hs⟩
  have hb : (0 : ℚ) + tok > 0 := by simpa using ht
  simp only [apply_trade, hp, Option.map_none', Option.getD_none, if_neg hcond, if_pos hb]
  norm_num


/-! ### Shared lemmas for the wait / buy-sequence proofs -/

lemma waitForReceipt_silent (attempts : List Attempt) :
    ∀ cs : Bool, (∀ a ∈ attempts, noReceiptAttempt a = true) →
      waitForReceipt attempts cs =
        ⟨none, none,
         some (if cs || attempts.any confirmingAttempt then "RECEIPT_PENDING"
               else "Transaction not found on-chain")⟩ := by
  induction attempts with
  | nil =>
    intro cs _
    simp only [waitForReceipt, List.any_nil, Bool.or_false]
    cases cs <;> simp
  | cons a rest ih =>
    intro cs hall
    have ha := hall a (List.mem_cons_self a rest)
    have hrest : ∀ b ∈ rest, noReceiptAttempt b = true :=
      fun b hb => hall b (List.mem_cons_of_mem a hb)
    by_cases hr : a.raises = true
    · have hca : confirmingAttempt a = false := by
        simp [confirmingAttempt, hr]
      have hstep : waitForReceipt (a :: rest) cs = waitForReceipt rest cs := by
        simp [waitForReceipt, hr]
      rw [hstep, ih cs hrest]
      simp [List.any_cons, hca]
    · have hr' : a.raises = false := by simpa using hr
      simp only [noReceiptAttempt, hr', Bool.false_or, Bool.and_eq_true,
        Option.isNone_iff_eq_none] at ha
      have htx : a.tx = none := ha.1
      cases hst : a.status with
      | none =>
        have hca : confirmingAttempt a = false := by
          simp [confirmingAttempt, hr', htx, hst]
        have hstep : waitForReceipt (a :: rest) cs = waitForReceipt rest cs := by
          simp [waitForReceipt, hr', htx, hst]
        rw [hstep, ih cs hrest]
        simp [List.any_cons, hca]
      | some s =>
        have herr : s.err = none := by
          have := ha.2
          rw [hst] at this
          simpa [Option.isNone_iff_eq_none] using this
        have hca : confirmingAttempt a =
            (match s.confirmationStatus with
             | some c => c == "processed" || c == "confirmed" || c == "finalized"
             | none => false) := by
          simp [confirmingAttempt, hr', htx, hst, herr]
        have hstep : waitForReceipt (a :: rest) cs =
            waitForReceipt rest
              (cs || (match s.confirmationStatus with
                      | some c => c == "processed" || c == "confirmed" || c == "finalized"
                      | none => false)) := by
          simp [waitForReceipt, hr', htx, hst, herr]
        rw [hstep, ih _ hrest]
        rw [List.any_cons, hca, Bool.or_assoc]

lemma applyBuys_invariant (l : List (ℚ × ℚ)) :
    ∀ (st : LedgerState) (p : PositionRow), st.pos = some p → 0 < p.token_balance →
      p.avg_entry_sol = p.total_sol_spent / p.token_balance →
      (∀ x ∈ l, 0 < x.1 ∧ 0 < x.2) →
      ∃ st' p', applyBuys st l = .ok st' ∧ st'.pos = some p' ∧
        p'.token_balance = p.token_balance + (l.map Prod.fst).sum ∧
        p'.total_sol_spent = p.total_sol_spent + (l.map Prod.snd).sum ∧
        p'.avg_entry_sol = p'.total_sol_spent / p'.token_balance := by
  induction l with
  | nil =>
    intro st p hp hb hinv _
    exact ⟨st, p, rfl, hp, by simp, by simp, hinv⟩
  | cons ts rest ih =>
    intro st p hp hb hinv hall
    obtain ⟨ht, hs⟩ := hall ts (by simp)
    have hrest : ∀ x ∈ rest, 0 < x.1 ∧ 0 < x.2 := fun x hx => hall x (by simp [hx])
    have hb1 : 0 < p.token_balance + ts.1 := by linarith
    have happ := apply_trade_buy_some st p ts.1 ts.2 none hp ht hs hb1
    have hstep : applyBuys st (ts :: rest) =
        applyBuys { st with
          pos := some { token_balance := p.token_balance + ts.1,
                        avg_entry_sol := (p.total_sol_spent + ts.2) / (p.token_balance + ts.1),
                        total_sol_spent := p.total_sol_spent + ts.2,
                        total_sol_received := p.total_sol_received,
                        realized_pnl_sol := p.realized_pnl_sol,
                        open_flag := true },
          trades := st.trades ++ [⟨.BUY, ts.1, ts.2, ts.2 / ts.1, none⟩] } rest := by
      simp only [applyBuys, happ]
    obtain ⟨st', p', hrun, hpos, hbal, hspent, havg⟩ :=
      ih ({ st with
            pos := some { token_balance := p.token_balance + ts.1,
                          avg_entry_sol := (p.total_sol_spent + ts.2) / (p.token_balance + ts.1),
                          total_sol_spent := p.total_sol_spent + ts.2,
                          total_sol_received := p.total_sol_received,
                          realized_pnl_sol := p.realized_pnl_sol,
                          open_flag := true },
            trades := st.trades ++ [⟨.BUY, ts.1, ts.2, ts.2 / ts.1, none⟩] })
        { token_balance := p.token_balance + ts.1,
          avg_entry_sol := (p.total_sol_spent + ts.2) / (p.token_balance + ts.1),
          total_sol_spent := p.total_sol_spent + ts.2,
          total_sol_received := p.total_sol_received,
          realized_pnl_sol := p.realized_pnl_sol,
          open_flag := true }
        rfl hb1 rfl hrest
    refine ⟨st', p', by rw [hstep]; exact hrun, hpos, ?_, ?_, havg⟩
    · simp only [hbal]
      simp [add_assoc]
    · simp only [hspent]
      simp [add_assoc]

/-! ### Claim theorems -/

/-- C1 (amended): a confirm_trade run whose retry loop never obtains a
receipt and never sees a signature-status error ends as follows.  If some
iteration saw a processed/confirmed/finalized signature status, the result
is PENDING with no error note and the whole database state — the pending
intent included — is left untouched (never FAILED).  If no iteration saw a
confirmation, the run is escalated: the intent is resolved FAILED with the
error text "Transaction not found on-chain" and the reported status is
FAILED. -/
theorem C1_retry_exhaustion (st : LedgerState) (i : IntentRow) (side : Side)
    (attempts : List Attempt) (om : Option ℚ) (os : RpcFetch) (sig : String)
    (hi : st.intent = some i)
    (hall : ∀ a ∈ attempts, noReceiptAttempt a = true) :
    (attempts.any confirmingAttempt = true →
      confirm_trade st side attempts om os sig = (st, ⟨.PENDING, none, none, none⟩)) ∧
    (attempts.any confirmingAttempt = false →
      confirm_trade st side attempts om os sig
        = ({ st with intent := some { i with status := .FAILED,
                                             error := some "Transaction not found on-chain",
                                             actual_token_amount := none,
                                             actual_sol_amount := none } },
           ⟨.FAILED, some "Transaction not found on-chain", none, none⟩)) := by
  have hw := waitForReceipt_silent attempts false hall
  constructor
  · intro hany
    rw [Bool.false_or] at hw
    rw [hany, if_pos rfl] at hw
    simp [confirm_trade, hw]
  · intro hany
    rw [Bool.false_or] at hw
    rw [hany] at hw
    simp only [if_neg (Bool.false_ne_true)] at hw
    simp [confirm_trade, hw, update_pending_trade_status, hi]

/-- C1 witness: two retry iterations, the second of which sees a confirmed
signature status and no receipt: the result is PENDING and the intent is
untouched. -/
theorem C1_witness :
    confirm_trade ⟨none, [], some ⟨.BUY, some 1, some 1, none, none, .PENDING, none⟩⟩ .BUY
        [⟨false, none, some ⟨none, some "confirmed"⟩⟩] none .raised "sig"
      = (⟨none, [], some ⟨.BUY, some 1, some 1, none, none, .PENDING, none⟩⟩,
         ⟨.PENDING, none, none, none⟩) :=
  (C1_retry_exhaustion ⟨none, [], some ⟨.BUY, some 1, some 1, none, none, .PENDING, none⟩⟩
      ⟨.BUY, some 1, some 1, none, none, .PENDING, none⟩ .BUY
      [⟨false, none, some ⟨none, some "confirmed"⟩⟩] none .raised "sig" rfl
      (by decide)).1 (by decide)

/-- C1 counterexample: a run that exhausts its retries with no receipt and
no confirmation ever seen is reported FAILED and the pending intent is
resolved FAILED — not the PENDING "not found on-chain" outcome the claim
states. -/
theorem C1_counterexample :
    (confirm_trade ⟨none, [], some ⟨.BUY, some 1, some 1, none, none, .PENDING, none⟩⟩ .BUY
        [⟨false, none, none⟩] none .raised "sig").2.status = .FAILED ∧
    (confirm_trade ⟨none, [], some ⟨.BUY, some 1, some 1, none, none, .PENDING, none⟩⟩ .BUY
        [⟨false, none, none⟩] none .raised "sig").2.error
      = some "Transaction not found on-chain" ∧
    ((confirm_trade ⟨none, [], some ⟨.BUY, some 1, some 1, none, none, .PENDING, none⟩⟩ .BUY
        [⟨false, none, none⟩] none .raised "sig").1.intent.map fun j => j.status)
      = some .FAILED := ⟨rfl, rfl, rfl⟩

/-- C2 (amended): confirm_trade performs no terminal-state gate before
apply_trade.  Even when the stored intent is already SUCCESS with actual
amounts identical to the fetched deltas, a repeated confirm_trade run whose
receipt carries full deltas invokes apply_trade again: for a SELL the
position accrues the realized P&L delta a second time (the later on-chain
balance reconciliation, when it happens, corrects only token_balance). -/
theorem C2_resolution_not_gated (st : LedgerState) (p : PositionRow) (i : IntentRow)
    (tok sol : ℚ) (sd : ℤ) (td : ℚ) (om : Option ℚ) (os : RpcFetch) (sig : String)
    (hp : st.pos = some p) (hi : st.intent = some i)
    (hstatus : i.status = .SUCCESS)
    (hatok : i.actual_token_amount = some tok) (hasol : i.actual_sol_amount = some sol)
    (hsd : |(sd : ℚ)| / 1000000000 = sol) (htd : |td| = tok)
    (ht : 0 < tok) (hs : 0 < sol) (hle : tok ≤ p.token_balance) :
    (confirm_trade st .SELL [⟨false, some ⟨some ⟨none⟩, some sd, some td⟩, none⟩]
        om os sig).2.status = .SUCCESS ∧
    ((confirm_trade st .SELL [⟨false, some ⟨some ⟨none⟩, some sd, some td⟩, none⟩]
        om os sig).1.pos.map fun q => q.realized_pnl_sol)
      = some (p.realized_pnl_sol + (sol - tok * p.avg_entry_sol)) := by
  have hb : 0 < p.token_balance := lt_of_lt_of_le ht hle
  have hw : waitForReceipt [⟨false, some ⟨some ⟨none⟩, some sd, some td⟩, none⟩] false
      = ⟨some sd, some td, none⟩ := rfl
  by_cases hsnap : p.token_balance - tok ≤ epsilon
  · have happ := apply_trade_sell_snap st p tok sol (some sig) hp ht hs hb hle hsnap
    rcases os with _ | (_ | bb) <;>
    · simp only [confirm_trade, hw]
      rw [htd, hsd]
      simp [happ, update_pending_trade_status, reconcile_position_balance, hi]
  · have happ := apply_trade_sell_nosnap st p tok sol (some sig) hp ht hs hb hle hsnap
    rcases os with _ | (_ | bb) <;>
    · simp only [confirm_trade, hw]
      rw [htd, hsd]
      simp [happ, update_pending_trade_status, reconcile_position_balance, hi]

/-- C2 witness: position with balance 6, entry 1, realized P&L 1 (the state
after a first successful partial-sell resolution of 4 tokens for 5 SOL);
re-running confirm_trade for the already-SUCCESS signature with the same
deltas reports SUCCESS and re-accrues the P&L. -/
theorem C2_witness :
    (confirm_trade ⟨some ⟨6, 1, 10, 5, 1, true⟩, [],
        some ⟨.SELL, some 4, some 0, some 4, some 5, .SUCCESS, none⟩⟩ .SELL
        [⟨false, some ⟨some ⟨none⟩, some 5000000000, some (-4)⟩, none⟩]
        none (.value (some 6)) "sig").2.status = .SUCCESS ∧
    ((confirm_trade ⟨some ⟨6, 1, 10, 5, 1, true⟩, [],
        some ⟨.SELL, some 4, some 0, some 4, some 5, .SUCCESS, none⟩⟩ .SELL
        [⟨false, some ⟨some ⟨none⟩, some 5000000000, some (-4)⟩, none⟩]
        none (.value (some 6)) "sig").1.pos.map fun q => q.realized_pnl_sol)
      = some (1 + (5 - 4 * 1)) :=
  C2_resolution_not_gated ⟨some ⟨6, 1, 10, 5, 1, true⟩, [],
      some ⟨.SELL, some 4, some 0, some 4, some 5, .SUCCESS, none⟩⟩
    ⟨6, 1, 10, 5, 1, true⟩ ⟨.SELL, some 4, some 0, some 4, some 5, .SUCCESS, none⟩
    4 5 5000000000 (-4) none (.value (some 6)) "sig" rfl rfl rfl rfl rfl
    (by norm_num) (by norm_num) (by norm_num) (by norm_num) (by norm_num)

/-- C2 counterexample: resolving the same signature to SUCCESS a second time
with identical actual amounts changes realized P&L from 1 to 2 — the trade
is applied again, refuting the claimed idempotence. -/
theorem C2_counterexample :
    ((⟨some ⟨6, 1, 10, 5, 1, true⟩, [],
        some ⟨.SELL, some 4, some 0, some 4, some 5, .SUCCESS, none⟩⟩ : LedgerState).pos.map
      fun q => q.realized_pnl_sol) = some 1 ∧
    ((confirm_trade ⟨some ⟨6, 1, 10, 5, 1, true⟩, [],
        some ⟨.SELL, some 4, some 0, some 4, some 5, .SUCCESS, none⟩⟩ .SELL
        [⟨false, some ⟨some ⟨none⟩, some 5000000000, some (-4)⟩, none⟩]
        none (.value (some 6)) "sig").1.pos.map fun q => q.realized_pnl_sol) = some 2 ∧
    (2 : ℚ) ≠ 1 := by
  refine ⟨rfl, ?_, by norm_num⟩
  have h1 : |(-4 : ℚ)| = 4 := by norm_num
  have h2 : |((5000000000 : ℤ) : ℚ)| / 1000000000 = 5 := by norm_num
  have hsnap : ¬((6 : ℚ) - 4 ≤ epsilon) := by norm_num [epsilon]
  have happ := apply_trade_sell_nosnap
    (⟨some ⟨6, 1, 10, 5, 1, true⟩, [],
      some ⟨.SELL, some 4, some 0, some 4, some 5, .SUCCESS, none⟩⟩ : LedgerState)
    ⟨6, 1, 10, 5, 1, true⟩ 4 5 (some "sig") rfl (by norm_num) (by norm_num) (by norm_num)
    (by norm_num) hsnap
  have hw : waitForReceipt [⟨false, some ⟨some ⟨none⟩, some 5000000000, some (-4)⟩, none⟩] false
      = ⟨some 5000000000, some (-4), none⟩ := rfl
  simp only [confirm_trade, hw]
  rw [h1, h2]
  simp [happ, update_pending_trade_status, reconcile_position_balance]
  norm_num


/-- C3 (confirmed, spec-modelled): reconcile_position_balance never alters
the trade log, the pending intent, avg_entry_sol or realized_pnl_sol, and
on every existing position it sets token_balance to exactly the given
on-chain value. -/
theorem C3_reconcile_balance_frame (st : LedgerState) (b : ℚ) :
    (reconcile_position_balance st b).trades = st.trades ∧
    (reconcile_position_balance st b).intent = st.intent ∧
    ((reconcile_position_balance st b).pos.map fun p => p.avg_entry_sol)
      = (st.pos.map fun p => p.avg_entry_sol) ∧
    ((reconcile_position_balance st b).pos.map fun p => p.realized_pnl_sol)
      = (st.pos.map fun p => p.realized_pnl_sol) ∧
    (∀ p, st.pos = some p →
      (reconcile_position_balance st b).pos = some { p with token_balance := b }) := by
  cases hp : st.pos with
  | none =>
    refine ⟨?_, ?_, ?_, ?_, ?_⟩ <;> simp [reconcile_position_balance, hp]
  | some p =>
    refine ⟨?_, ?_, ?_, ?_, ?_⟩
    · simp [reconcile_position_balance, hp]
    · simp [reconcile_position_balance, hp]
    · simp [reconcile_position_balance, hp]
    · simp [reconcile_position_balance, hp]
    · intro q hq
      have hq' : p = q := by injection hq
      subst hq'
      simp [reconcile_position_balance, hp]

/-- C3 witness: a position with balance 5, entry 2, P&L 1 reconciled to an
on-chain balance of 7 keeps entry 2 and P&L 1 and appends nothing. -/
theorem C3_witness :
    (reconcile_position_balance ⟨some ⟨5, 2, 10, 0, 1, true⟩, [], none⟩ 7).trades = [] ∧
    (reconcile_position_balance ⟨some ⟨5, 2, 10, 0, 1, true⟩, [], none⟩ 7).intent = none ∧
    ((reconcile_position_balance ⟨some ⟨5, 2, 10, 0, 1, true⟩, [], none⟩ 7).pos.map
        fun p => p.avg_entry_sol) = some 2 ∧
    ((reconcile_position_balance ⟨some ⟨5, 2, 10, 0, 1, true⟩, [], none⟩ 7).pos.map
        fun p => p.realized_pnl_sol) = some 1 ∧
    (reconcile_position_balance ⟨some ⟨5, 2, 10, 0, 1, true⟩, [], none⟩ 7).pos
      = some ⟨7, 2, 10, 0, 1, true⟩ := by
  obtain ⟨h1, h2, h3, h4, h5⟩ :=
    C3_reconcile_balance_frame ⟨some ⟨5, 2, 10, 0, 1, true⟩, [], none⟩ 7
  exact ⟨h1, h2, h3, h4, h5 ⟨5, 2, 10, 0, 1, true⟩ rfl⟩

/-- C4 (confirmed): an applied SELL with 0 < tok ≤ balance adds
`sol − tok × avg_entry` to realized P&L and subtracts tok from the balance;
when the remaining balance is within epsilon of zero it snaps to exactly 0
with avg_entry cleared and open set to false, otherwise avg_entry is
unchanged and the position stays open; and realized P&L accumulates
additively across a further sell. -/
theorem C4_sell_accounting (st : LedgerState) (p : PositionRow) (tok sol : ℚ)
    (sig : Option String) (hp : st.pos = some p) (ht : 0 < tok) (hs : 0 < sol)
    (hle : tok ≤ p.token_balance) :
    ∃ st' p', apply_trade st .SELL tok sol sig = .ok (st', p') ∧
      st'.pos = some p' ∧
      p'.realized_pnl_sol = p.realized_pnl_sol + (sol - tok * p.avg_entry_sol) ∧
      (p.token_balance - tok ≤ epsilon →
        p'.token_balance = 0 ∧ p'.avg_entry_sol = 0 ∧ p'.open_flag = false) ∧
      (epsilon < p.token_balance - tok →
        p'.token_balance = p.token_balance - tok ∧
        p'.avg_entry_sol = p.avg_entry_sol ∧ p'.open_flag = true) ∧
      (∀ tok2 sol2 sig2, 0 < tok2 → 0 < sol2 → tok2 ≤ p'.token_balance →
        ∃ st'' p'', apply_trade st' .SELL tok2 sol2 sig2 = .ok (st'', p'') ∧
          p''.realized_pnl_sol =
            p.realized_pnl_sol + (sol - tok * p.avg_entry_sol)
              + (sol2 - tok2 * p'.avg_entry_sol)) := by
  have hb : 0 < p.token_balance := lt_of_lt_of_le ht hle
  by_cases hsnap : p.token_balance - tok ≤ epsilon
  · rw [apply_trade_sell_snap st p tok sol sig hp ht hs hb hle hsnap]
    refine ⟨_, _, rfl, rfl, rfl, fun _ => ⟨rfl, rfl, rfl⟩, fun h => absurd h (not_lt.mpr hsnap), ?_⟩
    intro tok2 sol2 sig2 ht2 hs2 hle2
    exact absurd (lt_of_lt_of_le ht2 hle2) (by norm_num)
  · rw [apply_trade_sell_nosnap st p tok sol sig hp ht hs hb hle hsnap]
    refine ⟨_, _, rfl, rfl, rfl, fun h => absurd h hsnap, fun _ => ⟨rfl, rfl, rfl⟩, ?_⟩
    intro tok2 sol2 sig2 ht2 hs2 hle2
    set p' : PositionRow :=
      { token_balance := p.token_balance - tok,
        avg_entry_sol := p.avg_entry_sol,
        total_sol_spent := p.total_sol_spent,
        total_sol_received := p.total_sol_received + sol,
        realized_pnl_sol := p.realized_pnl_sol + (sol - tok * p.avg_entry_sol),
        open_flag := true } with hp'def
    have hb2 : 0 < p'.token_balance := lt_of_lt_of_le ht2 hle2
    have hp2 : ({ st with
        pos := some p',
        trades := st.trades ++ [⟨.SELL, tok, sol, sol / tok, sig⟩] } : LedgerState).pos
          = some p' := rfl
    by_cases hsnap2 : p'.token_balance - tok2 ≤ epsilon
    · rw [apply_trade_sell_snap _ p' tok2 sol2 sig2 hp2 ht2 hs2 hb2 hle2 hsnap2]
      exact ⟨_, _, rfl, rfl⟩
    · rw [apply_trade_sell_nosnap _ p' tok2 sol2 sig2 hp2 ht2 hs2 hb2 hle2 hsnap2]
      exact ⟨_, _, rfl, rfl⟩

/-- C4 witness: selling 4 of 10 tokens at cost basis 1 for 5 SOL realizes
P&L 1, keeps the cost basis at 1 and leaves the position open. -/
theorem C4_witness :
    ∃ st' p', apply_trade ⟨some ⟨10, 1, 10, 0, 0, true⟩, [], none⟩ .SELL 4 5 none = .ok (st', p') ∧
      st'.pos = some p' ∧
      p'.realized_pnl_sol = 0 + (5 - 4 * 1) ∧
      ((10 : ℚ) - 4 ≤ epsilon → p'.token_balance = 0 ∧ p'.avg_entry_sol = 0 ∧ p'.open_flag = false) ∧
      (epsilon < (10 : ℚ) - 4 → p'.token_balance = 10 - 4 ∧ p'.avg_entry_sol = 1 ∧ p'.open_flag = true) ∧
      (∀ tok2 sol2 sig2, 0 < tok2 → 0 < sol2 → tok2 ≤ p'.token_balance →
        ∃ st'' p'', apply_trade st' .SELL tok2 sol2 sig2 = .ok (st'', p'') ∧
          p''.realized_pnl_sol = 0 + (5 - 4 * 1) + (sol2 - tok2 * p'.avg_entry_sol)) :=
  C4_sell_accounting ⟨some ⟨10, 1, 10, 0, 0, true⟩, [], none⟩ ⟨10, 1, 10, 0, 0, true⟩ 4 5 none
    rfl (by norm_num) (by norm_num) (by norm_num)

/-- C5 (confirmed): with positive amounts, a SELL against a zero or missing
balance raises NoOpenPosition, a SELL larger than the balance raises
InsufficientBalance, and in both cases the database (position row and trade
log) is left exactly as it was. -/
theorem C5_sell_failures_leave_state_unchanged (st : LedgerState) (tok sol : ℚ)
    (sig : Option String) (ht : 0 < tok) (hs : 0 < sol) :
    (((st.pos.map fun p => p.token_balance).getD 0) ≤ 0 →
      apply_trade st .SELL tok sol sig = .error .noOpenPosition ∧
      applyTradeState st .SELL tok sol sig = st) ∧
    (0 < ((st.pos.map fun p => p.token_balance).getD 0) →
      ((st.pos.map fun p => p.token_balance).getD 0) < tok →
      apply_trade st .SELL tok sol sig = .error .insufficientBalance ∧
      applyTradeState st .SELL tok sol sig = st) := by
  have hcond : ¬(tok ≤ 0 ∨ sol ≤ 0) := by
    push_neg
    exact ⟨ht, hs⟩
  constructor
  · intro hb
    have h1 : apply_trade st .SELL tok sol sig = .error .noOpenPosition := by
      simp only [apply_trade, if_neg hcond, if_pos hb]
    exact ⟨h1, by simp only [applyTradeState, h1]⟩
  · intro hb hlt
    have h1 : apply_trade st .SELL tok sol sig = .error .insufficientBalance := by
      simp only [apply_trade, if_neg hcond, if_neg (not_le.mpr hb), if_pos hlt]
    exact ⟨h1, by simp only [applyTradeState, h1]⟩

/-- C5 witness: selling from a closed position (balance 0) raises
NoOpenPosition and selling 5 from a balance of 2 raises InsufficientBalance,
both leaving the state untouched. -/
theorem C5_witness :
    (0 : ℚ) < 1 ∧ (0 : ℚ) < 2 ∧
    (apply_trade ⟨some ⟨0, 0, 3, 0, 0, false⟩, [], none⟩ .SELL 1 2 none = .error .noOpenPosition ∧
      applyTradeState ⟨some ⟨0, 0, 3, 0, 0, false⟩, [], none⟩ .SELL 1 2 none
        = ⟨some ⟨0, 0, 3, 0, 0, false⟩, [], none⟩) ∧
    (apply_trade ⟨some ⟨2, 1, 2, 0, 0, true⟩, [], none⟩ .SELL 5 2 none = .error .insufficientBalance ∧
      applyTradeState ⟨some ⟨2, 1, 2, 0, 0, true⟩, [], none⟩ .SELL 5 2 none
        = ⟨some ⟨2, 1, 2, 0, 0, true⟩, [], none⟩) :=
  ⟨by norm_num, by norm_num,
    (C5_sell_failures_leave_state_unchanged ⟨some ⟨0, 0, 3, 0, 0, false⟩, [], none⟩ 1 2 none
      (by norm_num) (by norm_num)).1 (by norm_num),
    (C5_sell_failures_leave_state_unchanged ⟨some ⟨2, 1, 2, 0, 0, true⟩, [], none⟩ 5 2 none
      (by norm_num) (by norm_num)).2 (by norm_num) (by norm_num)⟩

/-- C6 (confirmed): a BUY sets new_balance = balance + token_amount and
new_avg_cost = (total_spent + sol) / new_balance, and consequently any
nonempty sequence of BUY trades on a fresh position ends with
avg_entry_sol = cumulative SOL spent / cumulative tokens bought (exactly,
in the rational model). -/
theorem C6_buy_average_cost (st0 : LedgerState) (t s : ℚ) (l : List (ℚ × ℚ))
    (h0 : st0.pos = none) (ht : 0 < t) (hs : 0 < s)
    (hl : ∀ x ∈ l, 0 < x.1 ∧ 0 < x.2) :
    (∀ (st : LedgerState) (p : PositionRow) (tok sol : ℚ) (sig : Option String),
      st.pos = some p → 0 < tok → 0 < sol → 0 ≤ p.token_balance →
      ∃ st' p', apply_trade st .BUY tok sol sig = .ok (st', p') ∧
        p'.token_balance = p.token_balance + tok ∧
        p'.avg_entry_sol = (p.total_sol_spent + sol) / (p.token_balance + tok)) ∧
    (∃ st' p', applyBuys st0 ((t, s) :: l) = .ok st' ∧ st'.pos = some p' ∧
      p'.token_balance = t + (l.map Prod.fst).sum ∧
      p'.total_sol_spent = s + (l.map Prod.snd).sum ∧
      p'.avg_entry_sol = (s + (l.map Prod.snd).sum) / (t + (l.map Prod.fst).sum)) := by
  constructor
  · intro st p tok sol sig hp htok hsol hb
    have hb1 : 0 < p.token_balance + tok := by linarith
    rw [apply_trade_buy_some st p tok sol sig hp htok hsol hb1]
    exact ⟨_, _, rfl, rfl, rfl⟩
  · have happ := apply_trade_buy_none st0 t s none h0 ht hs
    have hstep : applyBuys st0 ((t, s) :: l) =
        applyBuys { st0 with
          pos := some { token_balance := t, avg_entry_sol := s / t,
                        total_sol_spent := s, total_sol_received := 0,
                        realized_pnl_sol := 0, open_flag := true },
          trades := st0.trades ++ [⟨.BUY, t, s, s / t, none⟩] } l := by
      simp only [applyBuys, happ]
    obtain ⟨st', p', hrun, hpos, hbal, hspent, havg⟩ :=
      applyBuys_invariant l
        ({ st0 with
           pos := some { token_balance := t, avg_entry_sol := s / t,
                         total_sol_spent := s, total_sol_received := 0,
                         realized_pnl_sol := 0, open_flag := true },
           trades := st0.trades ++ [⟨.BUY, t, s, s / t, none⟩] })
        { token_balance := t, avg_entry_sol := s / t,
          total_sol_spent := s, total_sol_received := 0,
          realized_pnl_sol := 0, open_flag := true }
        rfl ht rfl hl
    refine ⟨st', p', by rw [hstep]; exact hrun, hpos, hbal, hspent, ?_⟩
    rw [havg, hspent, hbal]

/-- C6 witness: buying 1 token for 2 SOL then 2 tokens for 8 SOL gives a
cost basis of (2 + 8) / (1 + 2). -/
theorem C6_witness :
    ∃ st' p', applyBuys ⟨none, [], none⟩ [(1, 2), (2, 8)] = .ok st' ∧ st'.pos = some p' ∧
      p'.token_balance = 1 + ([((2 : ℚ), (8 : ℚ))].map Prod.fst).sum ∧
      p'.total_sol_spent = 2 + ([((2 : ℚ), (8 : ℚ))].map Prod.snd).sum ∧
      p'.avg_entry_sol = (2 + ([((2 : ℚ), (8 : ℚ))].map Prod.snd).sum)
        / (1 + ([((2 : ℚ), (8 : ℚ))].map Prod.fst).sum) :=
  (C6_buy_average_cost ⟨none, [], none⟩ 1 2 [(2, 8)] rfl (by norm_num) (by norm_num)
    (by intro x hx; simp at hx; simp [hx])).2


/-- C7 (amended): for an open position whose owner has TP/SL enabled, with a
positive average entry cost and an available price, one monitor tick
triggers a full-position auto-sell exactly when the take-profit percentage
is positive and price ≥ entry × (1 + tp/100), or — failing that — the
stop-loss percentage is positive and price ≤ entry × (1 − sl/100); the
take-profit branch is checked first and at most one branch fires. -/
theorem C7_tp_sl_trigger (pos : PosView) (u : String) (settings : MonitorSettings) (pr : ℚ)
    (hopen : pos.open_flag = true) (hen : settings.tp_sl_enabled = true)
    (hentry : 0 < pos.avg_entry_sol) :
    evaluatePosition pos (some u) settings (some pr) =
      (if settings.take_profit_pct > 0 ∧
          pr ≥ pos.avg_entry_sol * (1 + settings.take_profit_pct / 100) then
        .sellTP pos.token_balance
       else if settings.stop_loss_pct > 0 ∧
          pr ≤ pos.avg_entry_sol * (1 - settings.stop_loss_pct / 100) then
        .sellSL pos.token_balance
       else .skip) := by
  simp only [evaluatePosition, hopen, hen, Bool.not_true, Bool.false_eq_true, if_false,
    Option.isNone_some, if_neg (not_le.mpr hentry)]

/-- C7 witness: entry cost 1, take-profit 30%: price 1.30 triggers the
full-position take-profit sell, price 1.29 does not trigger anything. -/
theorem C7_witness :
    evaluatePosition ⟨true, 1, 100⟩ (some "u") ⟨true, 30, 20⟩ (some (13 / 10)) = .sellTP 100 ∧
    evaluatePosition ⟨true, 1, 100⟩ (some "u") ⟨true, 30, 20⟩ (some (129 / 100)) = .skip := by
  constructor
  · rw [C7_tp_sl_trigger ⟨true, 1, 100⟩ "u" ⟨true, 30, 20⟩ (13 / 10) rfl rfl (by norm_num)]
    norm_num
  · rw [C7_tp_sl_trigger ⟨true, 1, 100⟩ "u" ⟨true, 30, 20⟩ (129 / 100) rfl rfl (by norm_num)]
    norm_num

/-- C7 counterexample: with TP/SL enabled but take_profit_pct = 0, entry 1
and price 2, the price satisfies price ≥ entry × (1 + tp/100), yet the
evaluation does not trigger — the trigger condition of the claim lacks the
positivity guards the code imposes. -/
theorem C7_counterexample :
    evaluatePosition ⟨true, 1, 100⟩ (some "u") ⟨true, 0, 20⟩ (some 2) = .skip ∧
    (1 : ℚ) * (1 + 0 / 100) ≤ 2 := by
  constructor
  · norm_num [evaluatePosition]
  · norm_num

/-- C8: the monitor sweep has no per-position exception isolation.  With two
eligible positions where the first triggers an auto-sell whose confirmation
is PENDING (TxPending raised), the sweep aborts after that first position:
the exception propagates and the second position is never evaluated, the
opposite of the isolation the claim states. -/
theorem C8_monitor_loop_aborts :
    monitorOnce [⟨⟨true, 1, 100⟩, some "u", ⟨true, 30, 20⟩, .value (some 2), .pendingTx⟩,
                 ⟨⟨true, 1, 50⟩, some "u", ⟨true, 30, 20⟩, .value (some 2), .success⟩]
      = (1, some .txPending) := by
  norm_num [monitorOnce, evaluatePositionE, evaluatePosition]

/-- C9: an error text containing "custom program error: 0x1775" is mapped to
the human-readable bonding-curve message and a receipt carrying a program
error resolves the intent to terminal FAILED surfacing the raw error; but an
error text containing the mixed-case name BondingCurveComplete falls through
the classifier unchanged, because the lowercase literal is matched against
the original-case message. -/
theorem C9_program_error_classification :
    format_tx_error (some "custom program error: 0x1775")
      = "Bonding curve complete (migrated to Raydium)." ∧
    (confirm_trade ⟨none, [], some ⟨.BUY, none, none, none, none, .PENDING, none⟩⟩ .BUY
        [⟨false, some ⟨some ⟨some "custom program error: 0x1775"⟩, none, none⟩, none⟩]
        none .raised "sig")
      = (⟨none, [], some ⟨.BUY, none, none, none, none, .FAILED,
            some "custom program error: 0x1775"⟩⟩,
         ⟨.FAILED, some "custom program error: 0x1775", none, none⟩) ∧
    format_tx_error (some "BondingCurveComplete") = "BondingCurveComplete" := by
  refine ⟨?_, ?_, ?_⟩
  · rfl
  · rfl
  · rfl

/-- C10 (confirmed, implicit): fully closing a position does not reset its
cumulative total_sol_spent, so a later BUY on the same pair computes the new
average entry cost as (previous cumulative spent + new settlement) / new
balance, which strictly exceeds the unit price paid in the reopening buy. -/
theorem C10_reopened_cost_basis (t1 s1 s2 t2 s3 : ℚ)
    (ht1 : 0 < t1) (hs1 : 0 < s1) (hs2 : 0 < s2) (ht2 : 0 < t2) (hs3 : 0 < s3) :
    ∃ st1 p1 st2 p2 st3 p3,
      apply_trade ⟨none, [], none⟩ .BUY t1 s1 none = .ok (st1, p1) ∧
      apply_trade st1 .SELL t1 s2 none = .ok (st2, p2) ∧
      p2.token_balance = 0 ∧ p2.open_flag = false ∧
      p2.total_sol_spent = s1 ∧
      apply_trade st2 .BUY t2 s3 none = .ok (st3, p3) ∧
      p3.avg_entry_sol = (s1 + s3) / t2 ∧
      s3 / t2 < p3.avg_entry_sol := by
  have h1 := apply_trade_buy_none ⟨none, [], none⟩ t1 s1 none rfl ht1 hs1
  have hsnap : t1 - t1 ≤ epsilon := by
    simp only [sub_self, epsilon]
    norm_num
  have h2 := apply_trade_sell_snap
    ({ pos := some { token_balance := t1, avg_entry_sol := s1 / t1,
                     total_sol_spent := s1, total_sol_received := 0,
                     realized_pnl_sol := 0, open_flag := true },
       trades := [⟨.BUY, t1, s1, s1 / t1, none⟩], intent := none } : LedgerState)
    { token_balance := t1, avg_entry_sol := s1 / t1,
      total_sol_spent := s1, total_sol_received := 0,
      realized_pnl_sol := 0, open_flag := true }
    t1 s2 none rfl ht1 hs2 ht1 le_rfl hsnap
  have hb3 : (0 : ℚ) + t2 > 0 := by simpa using ht2
  have h3 := apply_trade_buy_some
    ({ pos := some { token_balance := 0, avg_entry_sol := 0,
                     total_sol_spent := s1, total_sol_received := 0 + s2,
                     realized_pnl_sol := 0 + (s2 - t1 * (s1 / t1)), open_flag := false },
       trades := [⟨.BUY, t1, s1, s1 / t1, none⟩, ⟨.SELL, t1, s2, s2 / t1, none⟩],
       intent := none } : LedgerState)
    { token_balance := 0, avg_entry_sol := 0,
      total_sol_spent := s1, total_sol_received := 0 + s2,
      realized_pnl_sol := 0 + (s2 - t1 * (s1 / t1)), open_flag := false }
    t2 s3 none rfl ht2 hs3 hb3
  have havg : (s1 + s3) / (0 + t2) = (s1 + s3) / t2 := by rw [zero_add]
  refine ⟨_, _, _, _, _, _, h1, h2, rfl, rfl, rfl, h3, ?_, ?_⟩
  · show (s1 + s3) / (0 + t2) = (s1 + s3) / t2
    exact havg
  · show s3 / t2 < (s1 + s3) / (0 + t2)
    rw [havg]
    exact (div_lt_div_iff_of_pos_right ht2).mpr (by linarith)

/-- C10 witness: buy 2 tokens for 3 SOL, sell them all for 5 SOL, then buy
2 tokens for 4 SOL: the reopened cost basis is (3 + 4) / 2 = 3.5, above the
unit price 2 actually paid in the reopening buy. -/
theorem C10_witness :
    ∃ st1 p1 st2 p2 st3 p3,
      apply_trade ⟨none, [], none⟩ .BUY 2 3 none = .ok (st1, p1) ∧
      apply_trade st1 .SELL 2 5 none = .ok (st2, p2) ∧
      p2.token_balance = 0 ∧ p2.open_flag = false ∧
      p2.total_sol_spent = 3 ∧
      apply_trade st2 .BUY 2 4 none = .ok (st3, p3) ∧
      p3.avg_entry_sol = (3 + 4) / 2 ∧
      (4 : ℚ) / 2 < p3.avg_entry_sol :=
  C10_reopened_cost_basis 2 3 5 2 4 (by norm_num) (by norm_num) (by norm_num)
    (by norm_num) (by norm_num)

end Scrapetech
